import Mathlib

/-!
Shallow embedding of `src/wallet_manager.py` (cdp_wallet_manager).

The embedding models, faithfully to the Python source:
* `_wait_for_transfer` (lines 64-104): the transfer polling loop, including
  its substring-based status classification, the 2-second sleep on pending,
  the wall-clock timeout guard `datetime.now() < timeout`, and the Boolean
  it returns to the caller.  Console prints that identify the branch taken
  are modelled as a log of `LogEntry` values.
* `send_tokens` (lines 238-340): local wallet-file lookup, remote wallet
  resolution, balance check, confirmation gate, gasless derivation and
  transfer submission, as a function from an environment (the collaborators
  the code reads from) to the observable outcome.
* `create_wallet` (lines 135-181): remote creation, the `base-sepolia`
  faucet attempt, and the fatal-exit path.
* `main` (lines 366-392): CLI dispatch, including `float(sys.argv[4])`.

Machine time is modelled in whole seconds; the only instruction that
advances time in the loop is `time.sleep(2)`, so elapsed time equals two
seconds per pending iteration.
-/

/-- Python `str.lower()` restricted to the character-wise lowering Lean
provides; statuses and asset ids in this program are ASCII. -/
def pyLower (s : String) : String :=
  ⟨s.data.map Char.toLower⟩

/-- Python `needle in hay` on strings (substring containment), over the
underlying character lists. -/
def containsSub (needle : List Char) : List Char → Bool
  | [] => needle.isEmpty
  | c :: rest => needle.isPrefixOf (c :: rest) || containsSub needle rest

/-- The four classification outcomes of the `if/elif` chain at
`wallet_manager.py:89-101`. -/
inductive StatusClass where
  | complete
  | failed
  | pending
  | unexpected
deriving DecidableEq, Repr

/-- Lines 87-101: `status_str = str(current_status).lower()` followed by the
substring tests, in source order: `'complete' in status_str`, then
`'failed' in status_str`, then `'pending' in status_str`, else unexpected. -/
def classifyStatus (s : String) : StatusClass :=
  if containsSub "complete".data (pyLower s).data then StatusClass.complete
  else if containsSub "failed".data (pyLower s).data then StatusClass.failed
  else if containsSub "pending".data (pyLower s).data then StatusClass.pending
  else StatusClass.unexpected

/-- The branch-identifying console prints of `_wait_for_transfer`. -/
inductive LogEntry where
  | progressDot
  | completedMsg
  | failedMsg
  | unexpectedMsg (raw : String)
  | timedOutMsg (minutes : Nat)
deriving DecidableEq, Repr

/-- Observable result of one `_wait_for_transfer` execution: the Boolean
returned to the caller, the number of `transfer.reload()` calls made, the
branch-identifying prints, and the elapsed wall-clock seconds at exit. -/
structure WaitRun where
  result : Bool
  reloads : Nat
  log : List LogEntry
  elapsedAtExit : Nat
deriving DecidableEq, Repr

/-- Prepends the `.` progress print of the pending branch (line 96) to a
run's log. -/
def pendCons (r : WaitRun) : WaitRun :=
  ⟨r.result, r.reloads, LogEntry.progressDot :: r.log, r.elapsedAtExit⟩

/-- The loop of `_wait_for_transfer` (lines 80-104).  `statuses n` is the
status string observed by the `(n+1)`-th `transfer.reload()`.  `elapsed` is
wall-clock seconds since `start_time`; the guard `elapsed < 60 * m` is the
source's `datetime.now() < timeout` with `timeout = start + m minutes`, and
each pending iteration advances time by the `time.sleep(2)`.  `fuel` is a
structural-recursion bound; the top-level entry point supplies more fuel
than the guard can ever consume, so the fuel-exhaustion branch coincides
with the guard-failure branch (both are the line 103-104 timeout return). -/
def waitLoop (statuses : Nat → String) (m : Nat) : Nat → Nat → Nat → WaitRun
  | 0, elapsed, reloads =>
      ⟨false, reloads, [LogEntry.timedOutMsg m], elapsed⟩
  | fuel + 1, elapsed, reloads =>
      if elapsed < 60 * m then
        match classifyStatus (statuses reloads) with
        | StatusClass.complete =>
            ⟨true, reloads + 1, [LogEntry.completedMsg], elapsed⟩
        | StatusClass.failed =>
            ⟨false, reloads + 1, [LogEntry.failedMsg], elapsed⟩
        | StatusClass.pending =>
            pendCons (waitLoop statuses m fuel (elapsed + 2) (reloads + 1))
        | StatusClass.unexpected =>
            ⟨false, reloads + 1, [LogEntry.unexpectedMsg (statuses reloads)], elapsed⟩
      else
        ⟨false, reloads, [LogEntry.timedOutMsg m], elapsed⟩

/-- Entry point `_wait_for_transfer(transfer, timeout_minutes=m)`: run the loop from
time zero.  Fuel `60 * m + 1` exceeds the maximal number of iterations the
guard admits (each continuing iteration costs 2 seconds of the `60 * m`
second budget), so the timeout return happens exactly when the guard fails. -/
def waitForTransfer (statuses : Nat → String) (m : Nat) : WaitRun :=
  waitLoop statuses m (60 * m + 1) 0 0

-- Step lemmas: one loop iteration, by observed classification.

lemma waitLoop_step_complete (statuses : Nat → String) (m fuel elapsed reloads : Nat)
    (hg : elapsed < 60 * m)
    (hs : classifyStatus (statuses reloads) = StatusClass.complete) :
    waitLoop statuses m (fuel + 1) elapsed reloads =
      ⟨true, reloads + 1, [LogEntry.completedMsg], elapsed⟩ := by
  conv_lhs => unfold waitLoop
  rw [if_pos hg, hs]

lemma waitLoop_step_failed (statuses : Nat → String) (m fuel elapsed reloads : Nat)
    (hg : elapsed < 60 * m)
    (hs : classifyStatus (statuses reloads) = StatusClass.failed) :
    waitLoop statuses m (fuel + 1) elapsed reloads =
      ⟨false, reloads + 1, [LogEntry.failedMsg], elapsed⟩ := by
  conv_lhs => unfold waitLoop
  rw [if_pos hg, hs]

lemma waitLoop_step_pending (statuses : Nat → String) (m fuel elapsed reloads : Nat)
    (hg : elapsed < 60 * m)
    (hs : classifyStatus (statuses reloads) = StatusClass.pending) :
    waitLoop statuses m (fuel + 1) elapsed reloads =
      pendCons (waitLoop statuses m fuel (elapsed + 2) (reloads + 1)) := by
  conv_lhs => unfold waitLoop
  rw [if_pos hg, hs]

lemma waitLoop_step_unexpected (statuses : Nat → String) (m fuel elapsed reloads : Nat)
    (hg : elapsed < 60 * m)
    (hs : classifyStatus (statuses reloads) = StatusClass.unexpected) :
    waitLoop statuses m (fuel + 1) elapsed reloads =
      ⟨false, reloads + 1, [LogEntry.unexpectedMsg (statuses reloads)], elapsed⟩ := by
  conv_lhs => unfold waitLoop
  rw [if_pos hg, hs]

/-- Number of loop iterations the guard still admits when every observed
status is pending: iterations run while `elapsed + 2*i < 60*m`. -/
def pendIters (timeoutSecs elapsed : Nat) : Nat :=
  (timeoutSecs - elapsed + 1) / 2

/-- Exact characterisation of the loop on an all-pending status stream:
it polls until the wall-clock guard fails, then takes the timeout return. -/
lemma waitLoop_all_pending (statuses : Nat → String) (m : Nat)
    (hp : ∀ n, classifyStatus (statuses n) = StatusClass.pending) :
    ∀ fuel elapsed reloads, pendIters (60 * m) elapsed ≤ fuel →
      waitLoop statuses m fuel elapsed reloads =
        ⟨false, reloads + pendIters (60 * m) elapsed,
         List.replicate (pendIters (60 * m) elapsed) LogEntry.progressDot
           ++ [LogEntry.timedOutMsg m],
         elapsed + 2 * pendIters (60 * m) elapsed⟩ := by
  intro fuel
  induction fuel with
  | zero =>
      intro elapsed reloads h
      have h0 : pendIters (60 * m) elapsed = 0 := Nat.le_zero.mp h
      simp [waitLoop, h0]
  | succ f ih =>
      intro elapsed reloads h
      by_cases hg : elapsed < 60 * m
      · have hone : pendIters (60 * m) elapsed = pendIters (60 * m) (elapsed + 2) + 1 := by
          unfold pendIters
          omega
        rw [waitLoop_step_pending statuses m f elapsed reloads hg (hp reloads)]
        rw [ih (elapsed + 2) (reloads + 1) (by omega)]
        simp [pendCons, hone, List.replicate_succ]
        omega
      · have h0 : pendIters (60 * m) elapsed = 0 := by
          unfold pendIters
          omega
        unfold waitLoop
        rw [if_neg hg]
        simp [h0]

/-- The collaborators `send_tokens` reads from: whether the local wallet
file `<from_address>.txt` exists, the default addresses of the wallets the
remote service lists, the refreshed balance mapping (asset id → amount,
absent assets give `none`), the confirmation line typed by the user, and
the status stream observed by the polling loop after submission. -/
structure SendEnv where
  localFileExists : Bool
  remoteWallets : List String
  balances : String → Option ℚ
  confirmInput : String
  statuses : Nat → String

/-- Observable outcome of `send_tokens` (lines 238-340), one constructor
per exit path.  `submitted` records the arguments of the single
`target_wallet.transfer(amount, asset_id, destination, gasless)` call and
the Boolean `_wait_for_transfer` handed back; reaching any other
constructor means no remote transfer-creation call was made. -/
inductive SendResult where
  | fileNotFound
  | walletNotFound
  | insufficientBalance (required available : ℚ)
  | cancelled
  | submitted (amount : ℚ) (asset destination : String) (gasless : Bool) (waitResult : Bool)
deriving DecidableEq

/-- Operation `send_tokens(from_address, to_address, quantity, asset_id)`, lines
238-340 in source order: local wallet-file open (line 242-248), linear scan
of `Wallet.list()` for `from_address` (253-262), balance check on the
lowercased asset with default 0 (278-284), the `yes` confirmation gate
(300-303), then `transfer(...)` with `gasless = (asset_id == 'usdc')` on
the already-lowercased asset id (307-315) and the polling loop with its
default 10-minute timeout (320). -/
def sendTokens (env : SendEnv) (fromAddr toAddr : String) (quantity : ℚ)
    (assetId : String) : SendResult :=
  if env.localFileExists = false then SendResult.fileNotFound
  else if env.remoteWallets.contains fromAddr = false then SendResult.walletNotFound
  else if (env.balances (pyLower assetId)).getD 0 < quantity then
    SendResult.insufficientBalance quantity ((env.balances (pyLower assetId)).getD 0)
  else if pyLower env.confirmInput ≠ "yes" then SendResult.cancelled
  else
    SendResult.submitted quantity (pyLower assetId) toAddr (pyLower assetId == "usdc")
      (waitForTransfer env.statuses 10).result

/-- The collaborators `create_wallet` depends on: whether the remote
`Wallet.create(network)` call succeeds, and whether the faucet request
(including its `wait()`) succeeds. -/
structure CreateEnv where
  createSucceeds : Bool
  faucetSucceeds : Bool

/-- Observable outcome of `create_wallet` (lines 135-181): `fatalExit` is
the `sys.exit(1)` in the outer exception handler; `created funding`
reports success, with `funding = none` when no faucet attempt was made and
`funding = some b` when a faucet attempt was made with success `b` (a
faucet failure is caught at line 175-176 and only logged). -/
inductive CreateResult where
  | fatalExit
  | created (funding : Option Bool)
deriving DecidableEq

/-- Operation `create_wallet()`, lines 135-181: create remotely, save the record,
then attempt faucet funding only when `self.network == 'base-sepolia'`
(line 165); the faucet attempt is wrapped in its own try/except. -/
def createWallet (env : CreateEnv) (network : String) : CreateResult :=
  if env.createSucceeds = false then CreateResult.fatalExit
  else if network = "base-sepolia" then CreateResult.created (some env.faucetSucceeds)
  else CreateResult.created none

/-- Modelled from the spec: Python's built-in `float()` conversion, which
is not part of this repository's sources, restricted to the plain decimal
literals the CLI deals in (optional sign, digits, optional single decimal
point).  Returns `none` exactly where `float()` raises `ValueError`. -/
def pyFloatBody (body : List Char) : Option ℚ :=
  let ip := body.takeWhile Char.isDigit
  let rest := body.dropWhile Char.isDigit
  match rest with
  | [] =>
      if ip.isEmpty then none
      else some ((ip.foldl (fun acc c => 10 * acc + (c.toNat - 48)) 0 : Nat) : ℚ)
  | c :: frac =>
      if c = '.' ∧ frac.all Char.isDigit = true ∧ (ip.isEmpty = false ∨ frac.isEmpty = false) then
        some (((ip.foldl (fun acc c => 10 * acc + (c.toNat - 48)) 0 : Nat) : ℚ)
          + ((frac.foldl (fun acc c => 10 * acc + (c.toNat - 48)) 0 : Nat) : ℚ)
            / ((10 : ℚ) ^ frac.length))
      else none

/-- Modelled from the spec: entry point of `float()`, handling the optional
leading sign. -/
def pyFloat (s : String) : Option ℚ :=
  match s.data with
  | [] => none
  | c :: rest =>
      if c = '-' then (pyFloatBody rest).map (fun q => -q)
      else if c = '+' then pyFloatBody rest
      else pyFloatBody (c :: rest)

/-- Observable outcome of `main()` (lines 366-392).  `usage` is the
`print_usage()` path followed by a normal return (exit status 0);
`uncaughtValueError` is the uncaught exception raised by
`float(sys.argv[4])` on a malformed quantity (non-zero exit status).
The dispatched handlers are recorded with the arguments they receive. -/
inductive MainResult where
  | usage
  | ranCreateWallet
  | ranListWallets
  | ranSend (fromA toA : String) (q : ℚ) (asset : String)
  | ranShowBalance (addr : String)
  | uncaughtValueError
deriving DecidableEq

/-- Entry point `main()`, lines 366-392: usage when fewer than 2 argv entries, then
dispatch on `sys.argv[1].lower()`; the `send` arm requires exactly 6 argv
entries and converts `sys.argv[4]` with `float()` (line 383) before calling
the handler; the `show-balance` arm requires exactly 3 entries; every other
shape falls to the final `print_usage()`. -/
def mainRun : List String → MainResult
  | [] => MainResult.usage
  | [_] => MainResult.usage
  | _ :: cmdRaw :: rest =>
      let cmd := pyLower cmdRaw
      if cmd = "create-wallet" then MainResult.ranCreateWallet
      else if cmd = "list-wallets" then MainResult.ranListWallets
      else if cmd = "send" ∧ rest.length = 4 then
        match pyFloat (rest.getD 2 "") with
        | some q => MainResult.ranSend (rest.getD 0 "") (rest.getD 1 "") q (rest.getD 3 "")
        | none => MainResult.uncaughtValueError
      else if cmd = "show-balance" ∧ rest.length = 1 then
        MainResult.ranShowBalance (rest.getD 0 "")
      else MainResult.usage

-- Named concrete inputs used by witnesses and counterexamples.

/-- Status stream observed as `pending, pending, complete, complete, ...`. -/
def seqPendPendComplete : Nat → String :=
  fun n => if n < 2 then "pending" else "complete"

/-- Status stream that never leaves pending. -/
def seqAllPending : Nat → String := fun _ => "pending"

/-- Status stream that reports `failed` at once. -/
def seqAllFailed : Nat → String := fun _ => "failed"

/-- Claim C2: for a transfer whose observed status sequence across
successive reloads is pending, pending, complete, the polling loop returns
the success outcome after exactly 3 reload calls (and, the total reload
count being 3, performs no further reloads afterward), with the default
10-minute timeout.  Statuses beyond the third reload are unconstrained. -/
theorem wait_c2_three_reloads_success (statuses : Nat → String)
    (h0 : classifyStatus (statuses 0) = StatusClass.pending)
    (h1 : classifyStatus (statuses 1) = StatusClass.pending)
    (h2 : classifyStatus (statuses 2) = StatusClass.complete) :
    waitForTransfer statuses 10 =
      ⟨true, 3, [LogEntry.progressDot, LogEntry.progressDot, LogEntry.completedMsg], 4⟩ := by
  show waitLoop statuses 10 (60 * 10 + 1) 0 0 = _
  rw [show 60 * 10 + 1 = 600 + 1 from rfl]
  rw [waitLoop_step_pending statuses 10 600 0 0 (by norm_num) h0]
  rw [show (600 : Nat) = 599 + 1 from rfl]
  rw [waitLoop_step_pending statuses 10 599 (0 + 2) (0 + 1) (by norm_num) h1]
  rw [show (599 : Nat) = 598 + 1 from rfl]
  rw [waitLoop_step_complete statuses 10 598 (0 + 2 + 2) (0 + 1 + 1) (by norm_num) h2]
  simp [pendCons]

/-- Witness for C2 at the concrete stream pending, pending, complete. -/
theorem wait_c2_three_reloads_success_witness :
    waitForTransfer seqPendPendComplete 10 =
      ⟨true, 3, [LogEntry.progressDot, LogEntry.progressDot, LogEntry.completedMsg], 4⟩ :=
  wait_c2_three_reloads_success seqPendPendComplete (by decide) (by decide) (by decide)

/-- Claim C3: on a status stream that never leaves pending, the polling
loop terminates with the timed-out return exactly when the wall-clock
guard fails: for a timeout of `m` minutes it performs `30 * m` reloads
(300 under the default 10 minutes at the fixed 2-second interval), exits
with elapsed time `60 * m` seconds — the deadline — and returns the
timeout print and `False`; being a total function of `m`, it never polls
indefinitely. -/
theorem wait_c3_all_pending_times_out (statuses : Nat → String) (m : Nat)
    (hp : ∀ n, classifyStatus (statuses n) = StatusClass.pending) :
    waitForTransfer statuses m =
      ⟨false, 30 * m,
       List.replicate (30 * m) LogEntry.progressDot ++ [LogEntry.timedOutMsg m],
       60 * m⟩ := by
  show waitLoop statuses m (60 * m + 1) 0 0 = _
  have hpi : pendIters (60 * m) 0 = 30 * m := by
    unfold pendIters
    omega
  rw [waitLoop_all_pending statuses m hp (60 * m + 1) 0 0 (by unfold pendIters; omega)]
  rw [hpi]
  norm_num
  ring

/-- Witness for C3 at the constant pending stream and the default
10-minute timeout: exactly 300 reloads, exit at 600 elapsed seconds. -/
theorem wait_c3_all_pending_times_out_witness :
    waitForTransfer seqAllPending 10 =
      ⟨false, 300,
       List.replicate 300 LogEntry.progressDot ++ [LogEntry.timedOutMsg 10], 600⟩ :=
  wait_c3_all_pending_times_out seqAllPending 10
    (fun _ => by show classifyStatus "pending" = StatusClass.pending; decide)

/-- Claim C6: when the first observed status string classifies as
unexpected (its lowercased form contains none of the keywords), the loop
returns the failure Boolean with the unexpected-status print after exactly
one reload, immediately (elapsed time still 0), provided the timeout is
positive so the loop body runs at all. -/
theorem wait_c6_unexpected_immediate (statuses : Nat → String) (m : Nat)
    (hm : 1 ≤ m)
    (h : classifyStatus (statuses 0) = StatusClass.unexpected) :
    waitForTransfer statuses m =
      ⟨false, 1, [LogEntry.unexpectedMsg (statuses 0)], 0⟩ := by
  show waitLoop statuses m (60 * m + 1) 0 0 = _
  rw [waitLoop_step_unexpected statuses m (60 * m) 0 0 (by omega) h]

/-- Witness for C6 at the status string of the spec's example. -/
theorem wait_c6_unexpected_immediate_witness :
    waitForTransfer (fun _ => "archived") 10 =
      ⟨false, 1, [LogEntry.unexpectedMsg "archived"], 0⟩ :=
  wait_c6_unexpected_immediate (fun _ => "archived") 10 (by norm_num) (by decide)

/-- Claim C10: the classification of lines 89-101 tests the substrings in
the fixed source order complete, failed, pending on the lowercased status
string, so a string matching several keywords is classified by the first
match; in particular any status whose lowercased form contains `complete`
— even one also containing `failed` — classifies as complete, and a loop
observing it first returns the success outcome after one reload. -/
theorem classify_c10_first_match_order (s : String) :
    (containsSub "complete".data (pyLower s).data = true →
      classifyStatus s = StatusClass.complete ∧
      ∀ statuses : Nat → String, ∀ m : Nat, statuses 0 = s → 1 ≤ m →
        waitForTransfer statuses m = ⟨true, 1, [LogEntry.completedMsg], 0⟩) ∧
    (containsSub "complete".data (pyLower s).data = false →
      containsSub "failed".data (pyLower s).data = true →
      classifyStatus s = StatusClass.failed) ∧
    (containsSub "complete".data (pyLower s).data = false →
      containsSub "failed".data (pyLower s).data = false →
      containsSub "pending".data (pyLower s).data = true →
      classifyStatus s = StatusClass.pending) ∧
    (containsSub "complete".data (pyLower s).data = false →
      containsSub "failed".data (pyLower s).data = false →
      containsSub "pending".data (pyLower s).data = false →
      classifyStatus s = StatusClass.unexpected) := by
  refine ⟨fun hc => ⟨?_, ?_⟩, fun hc hf => ?_, fun hc hf hp => ?_, fun hc hf hp => ?_⟩
  · unfold classifyStatus
    rw [hc]
    rfl
  · intro statuses m hs0 hm
    have hcls : classifyStatus (statuses 0) = StatusClass.complete := by
      rw [hs0]
      unfold classifyStatus
      rw [hc]
      rfl
    show waitLoop statuses m (60 * m + 1) 0 0 = _
    rw [waitLoop_step_complete statuses m (60 * m) 0 0 (by omega) hcls]
  · unfold classifyStatus
    rw [hc, hf]
    rfl
  · unfold classifyStatus
    rw [hc, hf, hp]
    rfl
  · unfold classifyStatus
    rw [hc, hf, hp]
    rfl

/-- Witness for C10 at a status containing both `complete` and `failed`:
it classifies as complete and the loop returns success. -/
theorem classify_c10_first_match_order_witness :
    classifyStatus "complete_failed" = StatusClass.complete ∧
    waitForTransfer (fun _ => "complete_failed") 10 =
      ⟨true, 1, [LogEntry.completedMsg], 0⟩ := by
  have h := (classify_c10_first_match_order "complete_failed").1 (by decide)
  exact ⟨h.1, h.2 (fun _ => "complete_failed") 10 rfl (by norm_num)⟩

-- Environments exercising send_tokens, for witnesses and counterexamples.

/-- Environment whose transfer stays pending forever: local file present,
source wallet known remotely, 5 ETH available, user confirms. -/
def envPendingForever : SendEnv :=
  ⟨true, ["0xa"], fun a => if a = "eth" then some 5 else none, "yes", seqAllPending⟩

/-- Same environment except the transfer reports `failed` at once. -/
def envFailsAtOnce : SendEnv :=
  ⟨true, ["0xa"], fun a => if a = "eth" then some 5 else none, "yes", seqAllFailed⟩

set_option maxRecDepth 20000 in
/-- Counterexample to claim C4: the outcome `send_tokens` observes from
`_wait_for_transfer` is the same value `False` for a transfer that timed
out (constant pending stream, deadline elapsed: last print is the timeout
message) and for one whose status was `failed` (last print is the failure
message), and the two `send_tokens` executions produce identical results —
so the caller-observed outcome does not distinguish the two cases. -/
theorem wait_c4_caller_cannot_distinguish_cex :
    (waitForTransfer seqAllPending 10).log.getLast? = some (LogEntry.timedOutMsg 10) ∧
    (waitForTransfer seqAllFailed 10).log.getLast? = some LogEntry.failedMsg ∧
    (waitForTransfer seqAllPending 10).result = (waitForTransfer seqAllFailed 10).result ∧
    sendTokens envPendingForever "0xa" "0xb" 1 "eth" =
      sendTokens envFailsAtOnce "0xa" "0xb" 1 "eth" := by
  decide

/-- Claim C4 as amended: a timed-out transfer and a failed transfer are
distinguished only in the console prints of the polling loop (timeout
message versus failure message); the value returned to the caller is
`False` in both cases, so the caller-observed outcome does not distinguish
the deadline elapsing from a failed status. -/
theorem wait_c4_amended_false_for_both (statuses statuses2 : Nat → String) (m : Nat)
    (hm : 1 ≤ m)
    (hp : ∀ n, classifyStatus (statuses n) = StatusClass.pending)
    (hf : classifyStatus (statuses2 0) = StatusClass.failed) :
    (waitForTransfer statuses m).result = false ∧
    (waitForTransfer statuses2 m).result = false ∧
    (waitForTransfer statuses m).log.getLast? = some (LogEntry.timedOutMsg m) ∧
    (waitForTransfer statuses2 m).log.getLast? = some LogEntry.failedMsg ∧
    LogEntry.timedOutMsg m ≠ LogEntry.failedMsg := by
  have h1 : waitForTransfer statuses m =
      ⟨false, 30 * m,
       List.replicate (30 * m) LogEntry.progressDot ++ [LogEntry.timedOutMsg m],
       60 * m⟩ := by
    show waitLoop statuses m (60 * m + 1) 0 0 = _
    have hpi : pendIters (60 * m) 0 = 30 * m := by
      unfold pendIters
      omega
    rw [waitLoop_all_pending statuses m hp (60 * m + 1) 0 0 (by unfold pendIters; omega)]
    rw [hpi]
    norm_num
    ring
  have h2 : waitForTransfer statuses2 m =
      ⟨false, 1, [LogEntry.failedMsg], 0⟩ := by
    show waitLoop statuses2 m (60 * m + 1) 0 0 = _
    rw [waitLoop_step_failed statuses2 m (60 * m) 0 0 (by omega) hf]
  rw [h1, h2]
  refine ⟨rfl, rfl, ?_, rfl, by simp⟩
  simp [List.getLast?_concat]

/-- Witness for the amended C4 at the concrete streams and the default
timeout. -/
theorem wait_c4_amended_false_for_both_witness :
    (waitForTransfer seqAllPending 10).result = false ∧
    (waitForTransfer seqAllFailed 10).result = false ∧
    (waitForTransfer seqAllPending 10).log.getLast? = some (LogEntry.timedOutMsg 10) ∧
    (waitForTransfer seqAllFailed 10).log.getLast? = some LogEntry.failedMsg ∧
    LogEntry.timedOutMsg 10 ≠ LogEntry.failedMsg :=
  wait_c4_amended_false_for_both seqAllPending seqAllFailed 10 (by norm_num)
    (fun _ => by show classifyStatus "pending" = StatusClass.pending; decide)
    (by show classifyStatus "failed" = StatusClass.failed; decide)

/-- Claim C1: once the send operation reaches the balance check (the local
wallet file exists and the source address is known to the remote service),
it proceeds to the remote transfer-creation call only if the quantity is
at most the balance the mapping assigns to the lowercased asset (zero when
absent); when the balance is smaller it returns the insufficient-balance
error carrying required = quantity and available = balance, and — the
`submitted` constructor being the only one standing for a remote
submission — makes no remote submission call. -/
theorem send_c1_balance_guard (env : SendEnv) (fromAddr toAddr : String)
    (q : ℚ) (assetId : String)
    (hfile : env.localFileExists = true)
    (hfound : env.remoteWallets.contains fromAddr = true) :
    ((env.balances (pyLower assetId)).getD 0 < q →
       sendTokens env fromAddr toAddr q assetId =
         SendResult.insufficientBalance q ((env.balances (pyLower assetId)).getD 0)) ∧
    (∀ a : ℚ, ∀ as d : String, ∀ g r : Bool,
       sendTokens env fromAddr toAddr q assetId = SendResult.submitted a as d g r →
       q ≤ (env.balances (pyLower assetId)).getD 0) := by
  have hmem : fromAddr ∈ env.remoteWallets := by simpa using hfound
  constructor
  · intro hlt
    simp [sendTokens, hfile, hmem, hlt]
  · intro a as d g r h
    by_cases hlt : (env.balances (pyLower assetId)).getD 0 < q
    · simp [sendTokens, hfile, hmem, hlt] at h
    · exact not_lt.mp hlt

/-- Environment for the C1 witness: source wallet known both locally and
remotely, 1 ETH available. -/
def envOneEth : SendEnv :=
  ⟨true, ["0xa"], fun a => if a = "eth" then some 1 else none, "yes", fun _ => "complete"⟩

/-- Witness for C1: asking for 2 with 1 available reports the
insufficient-balance error with required 2 and available 1. -/
theorem send_c1_balance_guard_witness :
    sendTokens envOneEth "0xa" "0xb" 2 "ETH" = SendResult.insufficientBalance 2 1 :=
  (send_c1_balance_guard envOneEth "0xa" "0xb" 2 "ETH" rfl (by decide)).1 (by decide)

/-- Environment refuting claim C5: no local wallet file exists for the
source address and the remote service does not know the address either. -/
def envNoLocalFile : SendEnv :=
  ⟨false, [], fun _ => none, "yes", fun _ => "complete"⟩

/-- Counterexample to claim C5: with no local wallet file and an address
unknown to the remote service, the claim demands the wallet-not-found
error; the code instead fails earlier with the wallet-file-not-found error
(line 247), never consulting the remote service — so the failure mode is
not independent of the local record. -/
theorem send_c5_local_file_cex :
    sendTokens envNoLocalFile "0xa" "0xb" 1 "eth" = SendResult.fileNotFound ∧
    SendResult.fileNotFound ≠ SendResult.walletNotFound := by
  decide

/-- Claim C5 as amended: the send operation fails with the
wallet-not-found error exactly when the local wallet file exists and the
source address is unknown to the remote service; when the local file is
missing it fails with the file-not-found error instead, regardless of the
remote service's knowledge. -/
theorem send_c5_amended_resolution (env : SendEnv) (fromAddr toAddr : String)
    (q : ℚ) (assetId : String) :
    (env.localFileExists = false →
       sendTokens env fromAddr toAddr q assetId = SendResult.fileNotFound) ∧
    (env.localFileExists = true →
       (sendTokens env fromAddr toAddr q assetId = SendResult.walletNotFound ↔
         env.remoteWallets.contains fromAddr = false)) := by
  constructor
  · intro h
    simp [sendTokens, h]
  · intro h
    constructor
    · intro hres
      by_cases hc : env.remoteWallets.contains fromAddr = false
      · exact hc
      · exfalso
        simp only [Bool.not_eq_false] at hc
        have hmem : fromAddr ∈ env.remoteWallets := by simpa using hc
        simp [sendTokens, h, hmem] at hres
        split_ifs at hres
    · intro hc
      have hnmem : fromAddr ∉ env.remoteWallets := by simpa using hc
      simp [sendTokens, h, hnmem]

/-- Environment for the C5 witness: the local file exists but the remote
service lists no wallet with the source address. -/
def envLocalOnly : SendEnv :=
  ⟨true, [], fun _ => none, "yes", fun _ => "complete"⟩

/-- Witness for the amended C5: local record present, address unknown
remotely, so the operation fails with the wallet-not-found error. -/
theorem send_c5_amended_resolution_witness :
    sendTokens envLocalOnly "0xa" "0xb" 1 "eth" = SendResult.walletNotFound :=
  ((send_c5_amended_resolution envLocalOnly "0xa" "0xb" 1 "eth").2 rfl).mpr (by decide)

/-- Claim C7: whenever the send operation reaches the remote
transfer-creation call, the gasless flag it passes is true exactly when
the asset id equals `usdc` case-insensitively (the code lowercases the
asset id at line 278 and compares with `== 'usdc'` at line 307). -/
theorem send_c7_gasless_iff (env : SendEnv) (fromAddr toAddr : String)
    (q : ℚ) (assetId : String) (a : ℚ) (as d : String) (g r : Bool)
    (h : sendTokens env fromAddr toAddr q assetId = SendResult.submitted a as d g r) :
    (g = true ↔ pyLower assetId = "usdc") := by
  unfold sendTokens at h
  split_ifs at h
  injection h with h1 h2 h3 h4 h5
  subst h4
  exact beq_iff_eq

/-- Environment for the C7 witness: 5 USDC available, transfer completes. -/
def envUsdc : SendEnv :=
  ⟨true, ["0xa"], fun a => if a = "usdc" then some 5 else none, "yes", fun _ => "complete"⟩

/-- Witness for C7: sending asset id `USDC` reaches submission with
gasless true, and the theorem yields that its lowercase form is `usdc`. -/
theorem send_c7_gasless_iff_witness : pyLower "USDC" = "usdc" :=
  (send_c7_gasless_iff envUsdc "0xa" "0xb" 1 "USDC" 1 "usdc" "0xb" true true
    (by decide)).mp rfl

/-- Claim C8: wallet creation attempts faucet funding exactly when the
configured network is `base-sepolia` (funding field `some` versus `none`),
a faucet failure never changes the overall success (the result is
`created` for either faucet outcome), and a failing remote create call
terminates the process (`fatalExit`, the `sys.exit(1)` path). -/
theorem create_c8_funding_policy (env : CreateEnv) (network : String) :
    (env.createSucceeds = false → createWallet env network = CreateResult.fatalExit) ∧
    (env.createSucceeds = true → network = "base-sepolia" →
       createWallet env network = CreateResult.created (some env.faucetSucceeds)) ∧
    (env.createSucceeds = true → network ≠ "base-sepolia" →
       createWallet env network = CreateResult.created none) := by
  refine ⟨fun h => ?_, fun h hn => ?_, fun h hn => ?_⟩ <;> simp [createWallet, h, *]

/-- Witness for C8: on the test network with a failing faucet, creation
still succeeds and records the attempted-but-failed funding. -/
theorem create_c8_funding_policy_witness :
    createWallet ⟨true, false⟩ "base-sepolia" = CreateResult.created (some false) :=
  (create_c8_funding_policy ⟨true, false⟩ "base-sepolia").2.1 rfl rfl

/-- Counterexample to claim C9: the invocation
`send 0xa 0xb abc eth` is malformed (non-numeric quantity), yet the
program does not print usage and return; `float(sys.argv[4])` at line 383
raises an uncaught `ValueError`, terminating with a non-zero status. -/
theorem main_c9_malformed_quantity_cex :
    mainRun ["wallet_manager.py", "send", "0xa", "0xb", "abc", "eth"] =
      MainResult.uncaughtValueError ∧
    MainResult.uncaughtValueError ≠ MainResult.usage := by
  decide

/-- Claim C9 as amended: invocations with no command, an unknown command,
or a wrong argument count for `send` or `show-balance` print usage and
exit without error; but a `send` invocation with the right argument count
whose quantity does not parse as a float raises an uncaught `ValueError`
instead of printing usage. -/
theorem main_c9_amended_dispatch :
    mainRun [] = MainResult.usage ∧
    (∀ p : String, mainRun [p] = MainResult.usage) ∧
    (∀ prog cmdRaw : String, ∀ rest : List String,
      (pyLower cmdRaw ∉
          (["create-wallet", "list-wallets", "send", "show-balance"] : List String) →
        mainRun (prog :: cmdRaw :: rest) = MainResult.usage) ∧
      (pyLower cmdRaw = "send" → rest.length ≠ 4 →
        mainRun (prog :: cmdRaw :: rest) = MainResult.usage) ∧
      (pyLower cmdRaw = "show-balance" → rest.length ≠ 1 →
        mainRun (prog :: cmdRaw :: rest) = MainResult.usage) ∧
      (pyLower cmdRaw = "send" → rest.length = 4 → pyFloat (rest.getD 2 "") = none →
        mainRun (prog :: cmdRaw :: rest) = MainResult.uncaughtValueError)) := by
  have dsc : ("send" : String) ≠ "create-wallet" := by decide
  have dsl : ("send" : String) ≠ "list-wallets" := by decide
  have dss : ("send" : String) ≠ "show-balance" := by decide
  have dbc : ("show-balance" : String) ≠ "create-wallet" := by decide
  have dbl : ("show-balance" : String) ≠ "list-wallets" := by decide
  have dbs : ("show-balance" : String) ≠ "send" := by decide
  refine ⟨rfl, fun p => rfl, fun prog cmdRaw rest => ⟨?_, ?_, ?_, ?_⟩⟩
  · intro hnot
    simp only [List.mem_cons, List.not_mem_nil, or_false, not_or] at hnot
    obtain ⟨h1, h2, h3, h4⟩ := hnot
    simp [mainRun, h1, h2, h3, h4]
  · intro hs hl
    simp [mainRun, hs, hl, dsc, dsl, dss]
  · intro hs hl
    simp [mainRun, hs, hl, dbc, dbl, dbs]
  · intro hs hl hf
    simp only [mainRun, hs]
    rw [if_neg dsc, if_neg dsl, if_pos (⟨trivial, hl⟩ : True ∧ rest.length = 4), hf]

/-- Witness for the amended C9 at an unknown command. -/
theorem main_c9_amended_dispatch_witness :
    mainRun ["wallet_manager.py", "frobnicate"] = MainResult.usage :=
  (main_c9_amended_dispatch.2.2 "wallet_manager.py" "frobnicate" []).1 (by decide)
